import Mathlib

set_option maxRecDepth 100000

/-!
Verification development for the TitanBusinessPros/O-2 deployment scripts
(`new_website_deployer.py`, `weather_updater.py`, `new_website_updater.py`).

The Python sources are shallowly embedded: pure string manipulation is
modelled over Lean `String`, network requests are modelled by oracle
parameters describing the provider response, file reads by `Option String`
oracles, and Python exceptions by `Except PyErr`.  Floating-point
latitude/longitude values are modelled by the decimal type `Dec` below;
the values flowing through these scripts are short decimal literals, for
which `Dec` arithmetic and rendering agree with CPython floats.
-/

namespace O2

/-- Python exception kinds raised by the modelled code. -/
inductive PyErr
  | valueError
  | keyError
  | indexError
  | fileNotFoundError
  | environmentError
  | assertionError
  | nameError
  | sysExit (code : Nat)
  | exception (msg : String)
deriving DecidableEq, Repr

instance (ε α : Type) [DecidableEq ε] [DecidableEq α] : DecidableEq (Except ε α) := fun x y =>
  match x, y with
  | .error a, .error b =>
    if h : a = b then isTrue (by rw [h]) else isFalse (by simp [h])
  | .ok a, .ok b =>
    if h : a = b then isTrue (by rw [h]) else isFalse (by simp [h])
  | .error _, .ok _ => isFalse (by simp)
  | .ok _, .error _ => isFalse (by simp)

/-! ## Python string primitives -/

/-- Characters treated as whitespace by Python `str.strip()`. -/
def pyWS (c : Char) : Bool :=
  c = ' ' || c = '\t' || c = '\n' || c = '\r' || c = '\x0b' || c = '\x0c'

/-- `str.strip()` on a character list. -/
def stripChars (l : List Char) : List Char :=
  ((l.dropWhile pyWS).reverse.dropWhile pyWS).reverse

/-- Python `str.strip()` (no-argument form). -/
def pstrip (s : String) : String := ⟨stripChars s.data⟩

/-- Splitting on a single-character separator, on character lists. -/
def splitCharAux (sep : Char) : List Char → List (List Char)
  | [] => [[]]
  | c :: rest =>
    if c = sep then [] :: splitCharAux sep rest
    else
      match splitCharAux sep rest with
      | [] => [[c]]
      | h :: t => (c :: h) :: t

/-- Python `str.split(sep)` for a one-character separator: every
occurrence of `sep` splits, adjacent separators yield empty fields. -/
def pysplit (sep : Char) (s : String) : List String :=
  (splitCharAux sep s.data).map fun l => ⟨l⟩

/-- `str.replace(old, new)` on character lists (`pat` nonempty):
left-to-right, non-overlapping.  The `Nat` argument is the count of
characters of an already-emitted match still to be skipped, keeping the
recursion structural. -/
def replaceCore (pat rep : List Char) : List Char → Nat → List Char
  | [], _ => []
  | _ :: rest, skip + 1 => replaceCore pat rep rest skip
  | c :: rest, 0 =>
    if pat ≠ [] ∧ pat.isPrefixOf (c :: rest) then
      rep ++ replaceCore pat rep rest (pat.length - 1)
    else
      c :: replaceCore pat rep rest 0

/-- Python `str.replace(old, new)` (all occurrences).  The empty-`old`
case inserts `new` between every pair of characters, as Python does. -/
def pyreplace (s old new : String) : String :=
  if old = "" then ⟨new.data ++ (s.data.flatMap fun c => c :: new.data)⟩
  else ⟨replaceCore old.data new.data s.data 0⟩

/-- Substring occurrence test on character lists. -/
def containsChars (pat : List Char) : List Char → Bool
  | [] => pat.isEmpty
  | c :: rest => pat.isPrefixOf (c :: rest) || containsChars pat rest

/-- Python `sub in s` substring test. -/
def pyContains (s sub : String) : Bool := containsChars sub.data s.data

/-- Python `s.count(sub)` (non-overlapping) on character lists, with the
same skip-counter device as `replaceCore`. -/
def countCore (pat : List Char) : List Char → Nat → Nat
  | [], _ => 0
  | _ :: rest, skip + 1 => countCore pat rest skip
  | c :: rest, 0 =>
    if pat ≠ [] ∧ pat.isPrefixOf (c :: rest) then
      countCore pat rest (pat.length - 1) + 1
    else
      countCore pat rest 0

/-- Python `s.count(sub)` for nonempty `sub`. -/
def pyCount (s sub : String) : Nat := countCore sub.data s.data 0

/-- Python `str.lower()` (ASCII inputs). -/
def pyLower (s : String) : String := ⟨s.data.map Char.toLower⟩

/-- Python `s.startswith(p)`. -/
def pyStartsWith (s p : String) : Bool := p.data.isPrefixOf s.data

/-! ## Decimal floats

The scripts carry latitude/longitude as Python floats holding short
decimal values and interpolate them with `str(x)` and `f"{x:.2f}"`.
`Dec` represents such a value exactly as `mant / 10 ^ fdigits`.  It is
not normalised; decimal literals elaborate via `OfScientific` to a fixed
representation, and the models pass these values around without
arithmetic, so the derived (representational) equality is used
consistently. -/
structure Dec where
  mant : Int
  fdigits : Nat
deriving DecidableEq, Repr

instance : OfScientific Dec :=
  ⟨fun m b e => if b then ⟨Int.ofNat m, e⟩ else ⟨Int.ofNat m * 10 ^ e, 0⟩⟩

instance (n : Nat) : OfNat Dec n := ⟨⟨Int.ofNat n, 0⟩⟩

instance : Neg Dec := ⟨fun d => ⟨-d.mant, d.fdigits⟩⟩

/-- The integer `d * 10 ^ f`, assuming `d.fdigits ≤ f`. -/
def Dec.scaled (d : Dec) (f : Nat) : Int := d.mant * 10 ^ (f - d.fdigits)

/-- Value comparison `a ≤ b`. -/
def Dec.ble (a b : Dec) : Bool :=
  let f := max a.fdigits b.fdigits
  decide (a.scaled f ≤ b.scaled f)

/-- Value comparison `a < b`. -/
def Dec.blt (a b : Dec) : Bool :=
  let f := max a.fdigits b.fdigits
  decide (a.scaled f < b.scaled f)

/-- Python `abs(x)`. -/
def Dec.dabs (d : Dec) : Dec := ⟨|d.mant|, d.fdigits⟩

/-- Left-pad a digit list with `'0'` to length `n`. -/
def leftPadZero (n : Nat) (l : List Char) : List Char :=
  List.replicate (n - l.length) '0' ++ l

/-- `str(x)` for a nonnegative decimal `m / 10 ^ f`: integer part, a dot,
and the fractional digits with the trailing-zero run dropped (`".0"` when
integral), as CPython prints a short-decimal float. -/
def fmtDecNonneg (m : Nat) (f : Nat) : String :=
  let ip := m / 10 ^ f
  let fp := m % 10 ^ f
  let fdigitsList := leftPadZero f (Nat.toDigits 10 fp)
  let trimmed := (fdigitsList.reverse.dropWhile (· = '0')).reverse
  if trimmed = [] then Nat.repr ip ++ ".0"
  else Nat.repr ip ++ "." ++ ⟨trimmed⟩

/-- Model of Python `str(x)` for a float carrying a short decimal. -/
def fmtDec (d : Dec) : String :=
  if d.mant < 0 then "-" ++ fmtDecNonneg (-d.mant).toNat d.fdigits
  else fmtDecNonneg d.mant.toNat d.fdigits

/-- Two-digit zero-padded rendering of `n < 100`. -/
def pad2 (n : Nat) : String := if n < 10 then "0" ++ Nat.repr n else Nat.repr n

/-- `f"{x:.2f}"` for a nonnegative decimal `m / 10 ^ f` (half-up
rounding; the inputs used here are exact hundredths, where every
rounding mode agrees). -/
def fmt2DecNonneg (m : Nat) (f : Nat) : String :=
  let d := 10 ^ f
  let c := (m * 200 + d) / (2 * d)
  Nat.repr (c / 100) ++ "." ++ pad2 (c % 100)

/-- Model of Python `f"{x:.2f}"`. -/
def fmt2Dec (x : Dec) : String :=
  if x.mant < 0 then "-" ++ fmt2DecNonneg (-x.mant).toNat x.fdigits
  else fmt2DecNonneg x.mant.toNat x.fdigits

/-! ## new_website_deployer.py — location resolver -/

/-- Nominatim response as read by `geocode_city`: a transport error or
timeout, an HTTP 403, or a JSON result array (each element contributing
`float(lat), float(lon)`). -/
inductive GeoResp
  | err
  | http403
  | ok (results : List (Dec × Dec))
deriving DecidableEq, Repr

/-- `get_state_coordinates` (new_website_deployer.py lines 70-79). -/
def get_state_coordinates (state : String) : Dec × Dec :=
  let state_coords : List (String × (Dec × Dec)) :=
    [("Texas", (31.9686, -99.9018)), ("TX", (31.9686, -99.9018)),
     ("Oklahoma", (35.4676, -97.5164)), ("OK", (35.4676, -97.5164)),
     ("California", (36.7783, -119.4179)), ("CA", (36.7783, -119.4179)),
     ("New York", (43.2994, -74.2179)), ("NY", (43.2994, -74.2179)),
     ("Florida", (27.6648, -81.5158)), ("FL", (27.6648, -81.5158))]
  ((state_coords.find? fun p => p.1 == state).map Prod.snd).getD (39.8283, -98.5795)

/-- `geocode_city` (new_website_deployer.py lines 39-68).  The unpacking
`city, state = city_state.split('-')` happens before the `try:` block, so
it raises `ValueError` unless the split yields exactly two parts; inside
the `try:` the bare `except:` turns every failure — transport error,
non-2xx status, empty result array — into the `get_state_coordinates`
fallback, and HTTP 403 is diverted to the same fallback explicitly. -/
def geocode_city (city_state : String) (resp : GeoResp) : Except PyErr (Dec × Dec) :=
  match pysplit '-' city_state with
  | [_city, state] =>
    match resp with
    | .err => .ok (get_state_coordinates state)
    | .http403 => .ok (get_state_coordinates state)
    | .ok [] => .ok (get_state_coordinates state)
    | .ok (r :: _) => .ok r
  | _ => .error .valueError

/-! ## weather_updater.py — location resolver -/

/-- One Nominatim JSON result as read by `get_coordinates_and_bbox`:
`lat`/`lon` (JSON number strings, carried as decimals and rendered with
`fmtDec` where the script interpolates them), the `boundingbox` array,
and `display_name`. -/
structure NomResult where
  lat : Dec
  lon : Dec
  boundingbox : List Dec
  display_name : String
deriving DecidableEq, Repr

/-- Nominatim response for `get_coordinates_and_bbox`: a
`requests.RequestException` or a JSON result array. -/
inductive NomResp
  | err
  | ok (results : List NomResult)
deriving DecidableEq, Repr

/-- State words probed by `get_coordinates_and_bbox` via `in`. -/
def weatherStateWords : List String :=
  ["Oklahoma", "Texas", "California", "Florida", "New York"]

/-- Search-query construction of `get_coordinates_and_bbox`
(weather_updater.py lines 40-55). -/
def weatherSearchQuery (city_name : String) : String :=
  if pyContains city_name "-" && weatherStateWords.any (fun w => pyContains city_name w) then
    match pysplit '-' city_name with
    | [city, state] => pstrip city ++ ", " ++ pstrip state ++ ", USA"
    | _ => city_name ++ ", USA"
  else if pyContains city_name "," then city_name ++ ", USA"
  else city_name ++ ", Oklahoma, USA"

/-- `get_coordinates_and_bbox` (weather_updater.py lines 35-85).  A
request error or an empty result array yields the Python
`(None, None, None)` triple, modelled as `Except.ok none`: the city is
left unresolved (no centroid or default fallback exists here).  With a
nonempty result the `bbox_list[0] .. [3]` indexing sits inside a `try:`
that only catches `requests.RequestException`, so a short `boundingbox`
raises IndexError past the function. -/
def get_coordinates_and_bbox (city_name : String) (resp : NomResp) :
    Except PyErr (Option (Dec × Dec × String)) :=
  let _search_query := weatherSearchQuery city_name
  match resp with
  | .err => .ok none
  | .ok [] => .ok none
  | .ok (r :: _) =>
    match r.boundingbox with
    | s_lat :: n_lat :: w_lon :: e_lon :: _ =>
      let bbox := fmtDec s_lat ++ "," ++ fmtDec w_lon ++ "," ++ fmtDec n_lat ++ "," ++ fmtDec e_lon
      .ok (some (r.lat, r.lon, bbox))
    | _ => .error .indexError

/-! ## new_website_deployer.py — content aggregator -/

/-- An OSM element as the scripts read it: an optional `tags` JSON object
(an association list; `element.get('tags', {})` in the deployer,
`element['tags']` — raising `KeyError` when absent — in the weather
updater), and the position fields used for map links. -/
structure Elem where
  tags : Option (List (String × String)) := none
  lat : Option String := none
  lon : Option String := none
  center : Option (String × String) := none
deriving DecidableEq, Repr

/-- Python `d.get(k, default)` on a JSON-object association list. -/
def tget (tags : List (String × String)) (k default : String) : String :=
  ((tags.find? fun p => p.1 == k).map Prod.snd).getD default

/-- Python `k in d` on a JSON-object association list. -/
def tmem (tags : List (String × String)) (k : String) : Bool :=
  (tags.find? fun p => p.1 == k).isSome

/-- One processed business listing (the dict built by
`process_business_data_enhanced` and by `get_business_fallbacks`). -/
structure Listing where
  name : String
  address : String
  phone : String
  website : String
deriving DecidableEq, Repr

/-- The categories with an Overpass query in `query_overpass_enhanced`
(new_website_deployer.py lines 152-229), which are also exactly the
categories iterated by `main` (line 682). -/
def deployerCategories : List String :=
  ["barbers", "bars", "diners_cafes", "libraries", "attractions_amusements", "coffee_shops"]

/-- `get_business_fallbacks` (new_website_deployer.py lines 315-349):
three synthetic listings per known category, `[]` otherwise. -/
def get_business_fallbacks (category city : String) : List Listing :=
  if category = "barbers" then
    [⟨city ++ " Barber Shop", "Main Street, " ++ city, "", "#"⟩,
     ⟨"Professional Cuts", "Downtown " ++ city, "", "#"⟩,
     ⟨"Classic Barbers", "City Center, " ++ city, "", "#"⟩]
  else if category = "coffee_shops" then
    [⟨city ++ " Coffee House", "Central Avenue, " ++ city, "", "#"⟩,
     ⟨"Downtown Cafe", "Business District, " ++ city, "", "#"⟩,
     ⟨"Brew & Bean", "Shopping Center, " ++ city, "", "#"⟩]
  else if category = "bars" then
    [⟨city ++ " Pub", "Main Street, " ++ city, "", "#"⟩,
     ⟨"City Bar", "Downtown " ++ city, "", "#"⟩,
     ⟨"Local Tavern", "Entertainment District, " ++ city, "", "#"⟩]
  else if category = "diners_cafes" then
    [⟨city ++ " Family Diner", "Central Avenue, " ++ city, "", "#"⟩,
     ⟨"Local Cafe", "Business District, " ++ city, "", "#"⟩,
     ⟨"City Grill", "Downtown " ++ city, "", "#"⟩]
  else if category = "libraries" then
    [⟨city ++ " Public Library", "Community Center, " ++ city, "", "#"⟩,
     ⟨"Regional Library", "Education District, " ++ city, "", "#"⟩,
     ⟨"Community Library", "Civic Center, " ++ city, "", "#"⟩]
  else if category = "attractions_amusements" then
    [⟨city ++ " Community Park", "Recreation Area, " ++ city, "", "#"⟩,
     ⟨"Local Museum", "Cultural District, " ++ city, "", "#"⟩,
     ⟨"City Gardens", "Park Area, " ++ city, "", "#"⟩]
  else []

/-- The listing built for one accepted business inside the loop of
`process_business_data_enhanced` (lines 266-297): address assembly from
`addr:*` tags, phone/website extraction, and the `'#'` normalisation of
non-`http` websites. -/
def mkListing (tags : List (String × String)) (name category city : String) : Listing :=
  let street := tget tags "addr:street" ""
  let housenumber := tget tags "addr:housenumber" ""
  let city_addr := tget tags "addr:city" city
  let postcode := tget tags "addr:postcode" ""
  let address :=
    if street ≠ "" ∧ housenumber ≠ "" then housenumber ++ " " ++ street
    else if street ≠ "" then street
    else "Local " ++ category ++ " in " ++ city
  let address :=
    if city_addr ≠ "" ∧ postcode ≠ "" then address ++ ", " ++ city_addr ++ " " ++ postcode
    else if city_addr ≠ "" then address ++ ", " ++ city_addr
    else address
  let phone := tget tags "phone" (tget tags "contact:phone" "")
  let website := tget tags "website" (tget tags "contact:website" (tget tags "url" "#"))
  let website :=
    if website = "#" ∨ ¬(pyStartsWith website "http://" || pyStartsWith website "https://") then "#"
    else website
  ⟨name, address, phone, website⟩

/-- The `for business in businesses:` loop of
`process_business_data_enhanced` (lines 255-301): skip empty or
already-seen names, otherwise record the name as seen, append the
listing, and break as soon as three listings are collected. -/
def processLoop (category city : String) :
    List Elem → List Listing → List String → List Listing × List String
  | [], processed, seen_names => (processed, seen_names)
  | business :: rest, processed, seen_names =>
    let tags := business.tags.getD []
    let name := pstrip (tget tags "name" "Unnamed Business")
    if name = "" ∨ name ∈ seen_names then processLoop category city rest processed seen_names
    else
      let processed' := processed ++ [mkListing tags name category city]
      let seen' := name :: seen_names
      if 3 ≤ processed'.length then (processed', seen')
      else processLoop category city rest processed' seen'

/-- The fallback-fill loop of `process_business_data_enhanced`
(lines 304-310): append fallbacks with fresh names while fewer than three
listings are present. -/
def fillFallbacks : List Listing → List Listing → List String → List Listing
  | [], processed, _ => processed
  | fallback :: rest, processed, seen_names =>
    if processed.length < 3 ∧ fallback.name ∉ seen_names then
      fillFallbacks rest (processed ++ [fallback]) (fallback.name :: seen_names)
    else
      fillFallbacks rest processed seen_names

/-- `process_business_data_enhanced` (new_website_deployer.py
lines 248-313). -/
def process_business_data_enhanced (businesses : List Elem) (category city : String) :
    List Listing :=
  if (processLoop category city businesses [] []).1.length < 3 then
    fillFallbacks (get_business_fallbacks category city)
      (processLoop category city businesses [] []).1
      (processLoop category city businesses [] []).2
  else (processLoop category city businesses [] []).1

/-! ## new_website_deployer.py — Overpass querying

`query_overpass_enhanced` (lines 148-246) makes exactly one HTTP POST to
the Overpass endpoint when the category has a query template — `main`
always calls it with the default `radius=20000` — and returns the
`elements` array (`[]` for unknown categories, without any request, and
`[]` on any request failure).  There is no second, widened query
anywhere. -/

/-- Result of one Overpass POST. -/
inductive OvCallResult
  | err
  | ok (elements : List Elem)
deriving DecidableEq, Repr

/-- The elements returned by `query_overpass_enhanced` for a provider
response oracle `provider` mapping the requested radius to the call
outcome. -/
def query_overpass_enhanced (provider : Nat → OvCallResult) (category : String)
    (radius : Nat := 20000) : List Elem :=
  if category ∈ deployerCategories then
    match provider radius with
    | .err => []
    | .ok elements => elements
  else []

/-- The radii of the Overpass requests issued by
`query_overpass_enhanced`: one request with the given radius when the
category has a query template, none otherwise. -/
def query_overpass_radii (category : String) (radius : Nat := 20000) : List Nat :=
  if category ∈ deployerCategories then [radius] else []

/-- One per-category step of `main`'s business-data loop
(new_website_deployer.py lines 686-692): a single
`query_overpass_enhanced` call at the default radius followed by
`process_business_data_enhanced`. -/
def deployerCategoryListings (provider : Nat → OvCallResult) (category city : String) :
    List Listing :=
  process_business_data_enhanced (query_overpass_enhanced provider category) category city

/-- The Overpass radii requested while producing one category of
`main`'s business data. -/
def deployerCategoryRadii (category : String) : List Nat :=
  query_overpass_radii category

/-! ## A small regular-expression engine

`update_html_template` edits the document with `re.sub`/`re.search` over
a fixed set of patterns built only from literals, character classes,
greedy `+`/`*` over a class, and lazy `.*?`.  The engine below implements
exactly these constructs with Python's backtracking semantics (leftmost
match; greedy pieces try the longest repetition first, lazy pieces the
shortest). -/

/-- Regular-expression syntax used by the scripts' patterns. -/
inductive Pat
  | lit (s : List Char)
  | plusGreedy (cls : Char → Bool)
  | starGreedy (cls : Char → Bool)
  | starLazy (cls : Char → Bool)
  | seq (a b : Pat)

/-- Sequence a list of patterns. -/
def Pat.cat : List Pat → Pat
  | [] => .lit []
  | [p] => p
  | p :: rest => .seq p (Pat.cat rest)

/-- Greedy repetition over an already-checked class run: try consuming
`j` characters, then back off one at a time down to `minLen`. -/
def greedyDesc (s : List Char) (k : List Char → Option (List Char)) (minLen : Nat) :
    Nat → Option (List Char)
  | 0 => if minLen = 0 then k s else none
  | j + 1 =>
    if j + 1 < minLen then none
    else
      match k (s.drop (j + 1)) with
      | some r => some r
      | none => greedyDesc s k minLen j

/-- Lazy star: try the continuation first, then consume one class
character and retry. -/
def lazyStar (cls : Char → Bool) (k : List Char → Option (List Char)) :
    List Char → Option (List Char)
  | [] => k []
  | c :: rest =>
    match k (c :: rest) with
    | some r => some r
    | none => if cls c then lazyStar cls k rest else none

/-- Backtracking matcher: match `p` at the head of `s` and pass the
remainder to the continuation `k`. -/
def matchPat : Pat → List Char → (List Char → Option (List Char)) → Option (List Char)
  | .lit l, s, k => if l.isPrefixOf s then k (s.drop l.length) else none
  | .plusGreedy cls, s, k => greedyDesc s k 1 (s.takeWhile cls).length
  | .starGreedy cls, s, k => greedyDesc s k 0 (s.takeWhile cls).length
  | .starLazy cls, s, k => lazyStar cls k s
  | .seq a b, s, k => matchPat a s fun s' => matchPat b s' k

/-- Match `p` at the head of `s`, returning the unmatched remainder. -/
def matchEnd (p : Pat) (s : List Char) : Option (List Char) := matchPat p s some

/-- `re.sub` core: replace every non-overlapping leftmost match
(the scripts' replacement strings contain no backreferences, so the
replacement is literal).  Every pattern used here starts with a nonempty
literal and so never matches the empty string; a zero-width match is
treated as no match to keep the scan total.  The `Nat` is the usual
skip-counter keeping the recursion structural. -/
def reSubCore (p : Pat) (rep : List Char) : List Char → Nat → List Char
  | [], _ => []
  | _ :: rest, skip + 1 => reSubCore p rep rest skip
  | c :: rest, 0 =>
    match matchEnd p (c :: rest) with
    | some remainder =>
      let len := (c :: rest).length - remainder.length
      if len = 0 then c :: reSubCore p rep rest 0
      else rep ++ reSubCore p rep rest (len - 1)
    | none => c :: reSubCore p rep rest 0

/-- Python `re.sub(p, rep, s)` for the patterns used here. -/
def reSub (p : Pat) (rep s : String) : String := ⟨reSubCore p rep.data s.data 0⟩

/-- `re.search` as a Boolean: does `p` match anywhere in `s`? -/
def reSearchCore (p : Pat) : List Char → Bool
  | [] => (matchEnd p []).isSome
  | c :: rest => (matchEnd p (c :: rest)).isSome || reSearchCore p rest

/-- Python `re.search(p, s) is not None`. -/
def reSearch (p : Pat) (s : String) : Bool := reSearchCore p s.data

/-- Class `[\d.-]`. -/
def clsDigitDotDash (c : Char) : Bool := c.isDigit || c = '.' || c = '-'

/-- Class `[\w/]` (ASCII word characters and slash). -/
def clsWordSlash (c : Char) : Bool := c.isAlphanum || c = '_' || c = '/'

/-- Class `[^>]`. -/
def clsNotGt (c : Char) : Bool := c ≠ '>'

/-- Class `[^<]`. -/
def clsNotLt (c : Char) : Bool := c ≠ '<'

/-- `.` under `re.DOTALL`. -/
def clsDotAll (_ : Char) : Bool := true

/-- `.` without `re.DOTALL` (does not match a newline). -/
def clsDotNoNl (c : Char) : Bool := c ≠ '\n'

/-! ## new_website_deployer.py — template renderer -/

/-- Pattern `Latitude: [\d.-]+° N` (line 422). -/
def patLatitude : Pat :=
  .cat [.lit "Latitude: ".data, .plusGreedy clsDigitDotDash, .lit "° N".data]

/-- Pattern `Longitude: [\d.-]+° W` (line 423). -/
def patLongitude : Pat :=
  .cat [.lit "Longitude: ".data, .plusGreedy clsDigitDotDash, .lit "° W".data]

/-- Pattern `timeZone: '[\w/]+'` (line 426). -/
def patTimeZone : Pat :=
  .cat [.lit "timeZone: \x27".data, .plusGreedy clsWordSlash, .lit "\x27".data]

/-- First Nexus-Point pattern (line 431, applied with `re.DOTALL`). -/
def patNexus1 : Pat :=
  .cat [.lit "<section id=\"paoli-ok\"".data, .starGreedy clsNotGt, .lit ">".data,
        .starLazy clsDotAll, .lit "<h2".data, .starGreedy clsNotGt, .lit ">".data,
        .starLazy clsDotAll, .lit "</h2>".data,
        .starLazy clsDotAll, .lit "<p>".data,
        .starLazy clsDotAll, .lit "</p>".data,
        .starLazy clsDotAll, .lit "</section>".data]

/-- Second Nexus-Point pattern (line 432, applied with `re.DOTALL`). -/
def patNexus2 : Pat :=
  .cat [.lit "<section id=\"paoli-ok\"".data, .starLazy clsDotAll, .lit "</section>".data]

/-- Third Nexus-Point pattern `The Nexus Point: [^<]+` (line 433). -/
def patNexus3 : Pat :=
  .cat [.lit "The Nexus Point: ".data, .plusGreedy clsNotLt]

/-- Pattern `const lat = [\d.-]+;` (line 458). -/
def patConstLat : Pat :=
  .cat [.lit "const lat = ".data, .plusGreedy clsDigitDotDash, .lit ";".data]

/-- Pattern `const lon = [\d.-]+;` (line 459). -/
def patConstLon : Pat :=
  .cat [.lit "const lon = ".data, .plusGreedy clsDigitDotDash, .lit ";".data]

/-- Pattern `//.*?Latitude` (line 460, no `re.DOTALL`). -/
def patCmtLat : Pat :=
  .cat [.lit "//".data, .starLazy clsDotNoNl, .lit "Latitude".data]

/-- Pattern `//.*?Longitude` (line 461, no `re.DOTALL`). -/
def patCmtLon : Pat :=
  .cat [.lit "//".data, .starLazy clsDotNoNl, .lit "Longitude".data]

/-- Per-category section pattern `<h3>{section_title}</h3>.*?</ul>`
(line 509, applied with `re.DOTALL`). -/
def patBusinessSection (section_title : String) : Pat :=
  .cat [.lit ("<h3>" ++ section_title ++ "</h3>").data, .starLazy clsDotAll, .lit "</ul>".data]

/-- The `daily` object of an Open-Meteo forecast response as produced by
`get_weather_forecast` (including its empty fallback shape). -/
structure WeatherDaily where
  time : List String
  temperature_2m_max : List Dec
  temperature_2m_min : List Dec
  weathercode : List Nat
deriving DecidableEq, Repr

/-- An Open-Meteo forecast payload. -/
structure WeatherData where
  daily : WeatherDaily
deriving DecidableEq, Repr

/-- `get_weather_forecast` (new_website_deployer.py lines 109-126):
the provider's JSON on success, the empty `daily` structure on any
failure. -/
def get_weather_forecast (resp : Option WeatherData) : WeatherData :=
  resp.getD ⟨⟨[], [], [], []⟩⟩

/-- `get_timezone_from_coords` (new_website_deployer.py lines 81-107).
`tzResp = none` models a failed or non-200 TimezoneDB request (the
hardcoded placeholder API key makes this the expected outcome); `some d`
models an HTTP 200 whose JSON `zoneName` is `d` (`none` inside for a
payload without the field, defaulted to `'America/Chicago'`).  Otherwise
the timezone is estimated from the longitude. -/
def get_timezone_from_coords (tzResp : Option (Option String)) (_lat lon : Dec) : String :=
  match tzResp with
  | some z => z.getD "America/Chicago"
  | none =>
    if Dec.ble (-85) lon && Dec.ble lon (-67) then "America/New_York"
    else if Dec.ble (-115) lon && Dec.blt lon (-85) then "America/Chicago"
    else if Dec.ble (-125) lon && Dec.blt lon (-115) then "America/Los_Angeles"
    else "America/Chicago"

/-- The `business_sections` dict of `update_html_template`
(lines 470-477), in insertion order. -/
def business_sections : List (String × String) :=
  [("barbers", "Barbershops"), ("coffee_shops", "Coffee Shops"),
   ("diners_cafes", "Diners & Cafés"), ("bars", "Local Bars & Pubs"),
   ("libraries", "Libraries"), ("attractions_amusements", "Attractions & Amusements")]

/-- Python `business_data.get(category, [])`. -/
def bget (business_data : List (String × List Listing)) (category : String) : List Listing :=
  ((business_data.find? fun p => p.1 == category).map Prod.snd).getD []

/-- The `<li>` block appended for one business (lines 488-504),
whitespace exactly as in the f-string. -/
def businessLi (business : Listing) : String :=
  let phone_html :=
    if business.phone ≠ "" then "<p>Phone: " ++ business.phone ++ "</p>" else ""
  let website_text :=
    if business.website = "#" then "Check Local Directory" else "Visit Website"
  "                <li>\n                    <strong>" ++ business.name ++
    "</strong>\n                    <p>" ++ business.address ++ "</p>\n                    " ++
    phone_html ++ "\n                    <a href=\"" ++ business.website ++
    "\" target=\"_blank\">" ++ website_text ++ "</a>\n                </li>\n"

/-- The regenerated section markup for one category (lines 483-506). -/
def businessNewSection (section_title : String) (businesses : List Listing) : String :=
  "<h3>" ++ section_title ++ "</h3>\n            <ul class=\"business-list\">\n" ++
    String.join (businesses.map businessLi) ++ "            </ul>"

/-- The `replacements` loop (lines 406-419): replace each marker when it
occurs in the document. -/
def applyReplacements : String → List (String × String) → String
  | html, [] => html
  | html, (old_text, new_text) :: rest =>
    let html := if 0 < pyCount html old_text then pyreplace html old_text new_text else html
    applyReplacements html rest

/-- `if re.search(p, html): html = re.sub(p, rep, html)` (the
`weather_updates` loop shape, lines 464-467). -/
def condSub (p : Pat) (rep html : String) : String :=
  if reSearch p html then reSub p rep html else html

/-- The Nexus-Point update (lines 430-454): the first matching pattern
wins; if none matches, a literal fallback replacement is attempted. -/
def nexusStep (html new_nexus_section city state : String) : String :=
  if reSearch patNexus1 html then reSub patNexus1 new_nexus_section html
  else if reSearch patNexus2 html then reSub patNexus2 new_nexus_section html
  else if reSearch patNexus3 html then reSub patNexus3 new_nexus_section html
  else if pyContains html "The Nexus Point:" then
    pyreplace html "The Nexus Point: Paoli, Oklahoma"
      ("The Nexus Point: " ++ city ++ ", " ++ state)
  else html

/-- One step of the business-sections loop (lines 479-514). -/
def businessSectionStep (business_data : List (String × List Listing)) (html : String)
    (cs : String × String) : String :=
  let businesses := bget business_data cs.1
  let new_section := businessNewSection cs.2 businesses
  let p := patBusinessSection cs.2
  if reSearch p html then reSub p new_section html else html

/-- `update_html_template` (new_website_deployer.py lines 389-552).
`doc` is the content of the local `index.html` the function reads;
`tzResp` is the TimezoneDB oracle threaded to
`get_timezone_from_coords`.  The `city, state = city_state.split('-')`
unpacking raises `ValueError` unless the split has exactly two parts
(re-raised by the function's own `except`).  The trailing verification
block (lines 516-545) only logs and never changes the document, so it is
not modelled.  Note that `weather_data` is never read. -/
def update_html_template (city_state : String) (lat lon : Dec) (weather_data : WeatherData)
    (wiki_summary : String) (business_data : List (String × List Listing))
    (tzResp : Option (Option String)) (doc : String) : Except PyErr String :=
  match pysplit '-' city_state with
  | [city, state] =>
    let _unused := weather_data
    let timezone := get_timezone_from_coords tzResp lat lon
    let html := applyReplacements doc
      [("Paoli, Oklahoma", city ++ ", " ++ state),
       ("Paoli, OK", city ++ ", " ++ state),
       ("Ardmore, Oklahoma", city ++ ", " ++ state),
       ("Ardmore, OK", city ++ ", " ++ state),
       ("Paoli", city)]
    let html := reSub patLatitude ("Latitude: " ++ fmt2Dec lat ++ "° N") html
    let html := reSub patLongitude ("Longitude: " ++ fmt2Dec lon.dabs ++ "° W") html
    let html := reSub patTimeZone ("timeZone: \x27" ++ timezone ++ "\x27") html
    let new_nexus_section :=
      "<section id=\"paoli-ok\" class=\"section paoli-section\">\n            " ++
      "<h2 class=\"section-title\">The Nexus Point: " ++ city ++ ", " ++ state ++
      "</h2>\n            <p>\n                " ++ wiki_summary ++
      "\n            </p>\n        </section>"
    let html := nexusStep html new_nexus_section city state
    let html := condSub patConstLat ("const lat = " ++ fmtDec lat ++ ";") html
    let html := condSub patConstLon ("const lon = " ++ fmtDec lon ++ ";") html
    let html := condSub patCmtLat ("// " ++ city ++ ", " ++ state ++ " Latitude") html
    let html := condSub patCmtLon ("// " ++ city ++ ", " ++ state ++ " Longitude") html
    let html := business_sections.foldl (businessSectionStep business_data) html
    .ok html
  | _ => .error .valueError

/-! ## new_website_deployer.py — publisher -/

/-- A destination repository on the hosting platform as the deployer
sees it: path-indexed file contents. -/
structure GhRepo where
  files : List (String × String)
deriving DecidableEq, Repr

/-- The platform state: name-indexed repositories of the account. -/
structure GhState where
  repos : List (String × GhRepo)
deriving DecidableEq, Repr

/-- Repository lookup by name. -/
def ghFindRepo (st : GhState) (name : String) : Option GhRepo :=
  (st.repos.find? fun p => p.1 == name).map Prod.snd

/-- Does the repository hold a file at `path`? -/
def ghRepoHasFile (r : GhRepo) (path : String) : Bool :=
  (r.files.find? fun p => p.1 == path).isSome

/-- `repo.create_file` inside the per-file `try:` of
`create_github_repo` (lines 618-628): the platform rejects a create for
an existing path, the script logs a "File creation warning" and moves
on, leaving the file unchanged. -/
def createFileOrWarn (r : GhRepo) (path content : String) : GhRepo :=
  if ghRepoHasFile r path then r else ⟨r.files ++ [(path, content)]⟩

/-- The destination name derived by `create_github_repo` (line 592):
dashes and spaces removed, lowercased — a pure function of the city
string. -/
def deployerRepoName (city_state : String) : String :=
  pyLower (pyreplace (pyreplace city_state "-" "") " " "")

/-- `get_github_pages_workflow` (new_website_deployer.py
lines 351-387). -/
def get_github_pages_workflow : String :=
  "name: Deploy to GitHub Pages\n\non:\n  push:\n    branches: [ main ]\n" ++
  "  workflow_dispatch:\n\npermissions:\n  contents: read\n  pages: write\n" ++
  "  id-token: write\n\nconcurrency:\n  group: \"pages\"\n  cancel-in-progress: false\n\n" ++
  "jobs:\n  deploy:\n    environment:\n      name: github-pages\n" ++
  "      url: $\x7b\x7b steps.deployment.outputs.page_url \x7d\x7d\n" ++
  "    runs-on: ubuntu-latest\n    steps:\n      - name: Checkout\n" ++
  "        uses: actions/checkout@v4\n      - name: Setup Pages\n" ++
  "        uses: actions/configure-pages@v4\n      - name: Upload artifact\n" ++
  "        uses: actions/upload-pages-artifact@v3\n        with:\n" ++
  "          path: \x27.\x27\n      - name: Deploy to GitHub Pages\n" ++
  "        id: deployment\n        uses: actions/deploy-pages@v4\n"

/-- The `files_to_push` dict (lines 612-616), in insertion order. -/
def files_to_push (updated_html : String) : List (String × String) :=
  [("index.html", updated_html), (".nojekyll", ""),
   (".github/workflows/deploy-pages.yml", get_github_pages_workflow)]

/-- The network interactions of the scripts. -/
inductive NetCall
  | nominatim
  | openmeteo
  | wikipedia
  | overpass (category : String)
  | timezonedb
  | github (what : String)
deriving DecidableEq, Repr

/-- `create_github_repo` (new_website_deployer.py lines 580-658) against
the platform state `st` (`username` is the authenticated `user.login`).
`user.create_repo` raises 422 when the repository name is taken; the
`except GithubException` branch treats status 422 as success and returns
the existing repository's URL — without writing or updating any file.
Otherwise the fresh repository is created, the three `files_to_push` are
pushed, and the Pages workflow is verified (two further read calls).
Returns the new platform state, the returned URL, and the GitHub API
calls made. -/
def create_github_repo (st : GhState) (username city_state updated_html : String) :
    GhState × String × List NetCall :=
  let repo_name := deployerRepoName city_state
  let url := "https://github.com/" ++ username ++ "/" ++ repo_name
  match ghFindRepo st repo_name with
  | some _ => (st, url, [.github "get_user", .github "create_repo 422"])
  | none =>
    let repo := (files_to_push updated_html).foldl
      (fun r pc => createFileOrWarn r pc.1 pc.2) ⟨[]⟩
    ({ repos := st.repos ++ [(repo_name, repo)] }, url,
      [.github "get_user", .github "create_repo",
       .github "create_file index.html", .github "create_file .nojekyll",
       .github "create_file workflow",
       .github "pages get_repo", .github "pages get_contents"])

/-- `read_city_from_file` (new_website_deployer.py lines 26-37):
`newTxt` is the content of `new.txt` when the file exists. -/
def read_city_from_file (newTxt : Option String) : Except PyErr String :=
  match newTxt with
  | none => .error (.exception "new.txt file not found")
  | some content =>
    let content := pstrip content
    if pyContains content "-" then .ok content else .error .valueError

/-- First element of a Python `split` result (never empty for `split`). -/
def pyidx0 (l : List String) : String := l.headD ""

/-- `get_wikipedia_summary` of the deployer (lines 128-146).  The
unpacking `city, state = city_state.split('-')` precedes the request, so
a bad split raises `ValueError` with no call made.  The oracle `resp` is
`none` for a failed request (fallback paragraph), `some none` for an
HTTP 200 payload without `extract`, `some (some e)` for extract `e`. -/
def deployer_get_wikipedia_summary (city_state : String) (resp : Option (Option String)) :
    Except PyErr String :=
  match pysplit '-' city_state with
  | [city, state] =>
    match resp with
    | some (some extract) => .ok extract
    | some none =>
      .ok (city ++ ", " ++ state ++ " is a location with rich local history and community.")
    | none =>
      .ok (city ++ ", " ++ state ++ " is a community with unique local character and " ++
        "growing opportunities for digital innovation and business development.")
  | _ => .error .valueError

/-- The provider oracles of one `new_website_deployer.main` run. -/
structure DeployerOracles where
  newTxt : Option String
  geo : GeoResp
  weather : Option WeatherData
  wiki : Option (Option String)
  overpass : String → Nat → OvCallResult
  tz : Option (Option String)
  indexHtml : Option String
  github : GhState
  username : String

/-- `main` of new_website_deployer.py (lines 660-715), returning the
outcome, the network calls made (in order), and the names of the local
record files written.  The module-level `GITHUB_TOKEN` is only touched
inside `create_github_repo` (`Auth.Token(None)` fails its type
assertion before any request), so every data-acquisition call — one
geocoding, one forecast, one encyclopedia, six Overpass and one
timezone request — happens before a missing credential can fail the
run.  The surrounding `try:` writes `deployment_error.txt` and
re-raises on any failure, `deployment_success.txt` on success. -/
def deployer_main (github_token : Option String) (o : DeployerOracles) :
    Except PyErr String × List NetCall × List String :=
  let fail : PyErr → List NetCall → Except PyErr String × List NetCall × List String :=
    fun e calls => (.error e, calls, ["deployment_error.txt"])
  match read_city_from_file o.newTxt with
  | .error e => fail e []
  | .ok city_state =>
    match geocode_city city_state o.geo with
    | .error e => fail e []
    | .ok (lat, lon) =>
      let weather_data := get_weather_forecast o.weather
      match deployer_get_wikipedia_summary city_state o.wiki with
      | .error e => fail e [.nominatim, .openmeteo]
      | .ok wiki_summary =>
        let city_name := pyidx0 (pysplit '-' city_state)
        let business_data := deployerCategories.map fun category =>
          (category, process_business_data_enhanced
            (query_overpass_enhanced (o.overpass category) category) category city_name)
        let calls := [NetCall.nominatim, .openmeteo, .wikipedia] ++
          deployerCategories.map NetCall.overpass
        match o.indexHtml with
        | none => fail .fileNotFoundError calls
        | some doc =>
          match update_html_template city_state lat lon weather_data wiki_summary
              business_data o.tz doc with
          | .error e => fail e calls
          | .ok updated_html =>
            let calls := calls ++ [NetCall.timezonedb]
            match github_token with
            | none => fail .assertionError calls
            | some _ =>
              let (_, url, ghCalls) :=
                create_github_repo o.github o.username city_state updated_html
              (.ok url, calls ++ ghCalls, ["deployment_success.txt"])

/-! ## File version tokens (content SHAs) -/

/-- A file in a destination repository: the platform-assigned version
token (content SHA) plus the content. -/
structure FileRec where
  sha : String
  content : String
deriving DecidableEq, Repr

/-- The files of a destination repository, path-indexed. -/
abbrev RepoFS := List (String × FileRec)

/-- `repo.get_contents(path)` as used for SHA retrieval. -/
def fsFind (fs : RepoFS) (path : String) : Option FileRec :=
  (fs.find? fun p => p.1 == path).map Prod.snd

/-- `get_content_sha` (weather_updater.py lines 207-213): the SHA when
the file exists, `None` otherwise. -/
def get_content_sha (fs : RepoFS) (path : String) : Option String :=
  (fsFind fs path).map FileRec.sha

/-- The platform's version token for freshly written content (modelled
as a function of the content; only its round-tripping matters here). -/
def shaOf (content : String) : String := "sha:" ++ content

/-- One call against the repository-contents API. -/
inductive GhOp
  | createF (path content : String)
  | updateF (path sha content : String)
deriving DecidableEq, Repr

/-- Apply one contents-API call to a repository. -/
def applyOp (fs : RepoFS) : GhOp → RepoFS
  | .createF path content => fs ++ [(path, ⟨shaOf content, content⟩)]
  | .updateF path _ content =>
    fs.map fun p => if p.1 == path then (p.1, ⟨shaOf content, content⟩) else p

/-- The commit shape of new_website_updater.py (lines 295-327) for each
file: `try: contents = repo.get_contents(path); repo.update_file(...,
sha=contents.sha) except: repo.create_file(...)`. -/
def commit_file (fs : RepoFS) (path content : String) : RepoFS × GhOp :=
  match fsFind fs path with
  | some contents =>
    let op := GhOp.updateF path contents.sha content
    (applyOp fs op, op)
  | none =>
    let op := GhOp.createF path content
    (applyOp fs op, op)

/-- Sequential `commit_file` over (path, content) pairs, collecting the
issued calls. -/
def commitSeq (fs : RepoFS) : List (String × String) → RepoFS × List GhOp
  | [] => (fs, [])
  | pc :: rest =>
    ((commitSeq (commit_file fs pc.1 pc.2).1 rest).1,
     (commit_file fs pc.1 pc.2).2 :: (commitSeq (commit_file fs pc.1 pc.2).1 rest).2)

/-- new_website_updater.py configuration constants (lines 12-21). -/
def VERIFICATION_FILE_NAME : String := "google51f4be664899794b6.html"

/-- The thank-you redirect file name. -/
def THANKYOU_FILE_NAME : String := "thankyou.html"

/-- weather_updater.py configuration constants (lines 12-16). -/
def TEMPLATE_FILE_NAME : String := "index.html"

/-- The repository name prefix shared by both updaters. -/
def REPO_PREFIX : String := "The-"

/-- The repository name suffix shared by both updaters. -/
def REPO_SUFFIX : String := "-Software-Guild"

/-- The four file commits of `process_city_deployment`
(new_website_updater.py lines 295-327), in order: Google verification
file, thank-you redirect, `.nojekyll`, rendered `index.html`. -/
def updaterCommitPhase (fs : RepoFS) (verification thankyou indexHtml : String) :
    RepoFS × List GhOp :=
  commitSeq fs
    [(VERIFICATION_FILE_NAME, verification), (THANKYOU_FILE_NAME, thankyou),
     (".nojekyll", ""), ("index.html", indexHtml)]

/-- The index commit of weather_updater's `process_city_deployment` in
its repository-exists branch (lines 306-323): fetch the SHA via
`get_content_sha`, update with it when present, create the file
otherwise. -/
def weatherCommitIndex (fs : RepoFS) (content : String) : RepoFS × GhOp :=
  match get_content_sha fs TEMPLATE_FILE_NAME with
  | some sha =>
    let op := GhOp.updateF TEMPLATE_FILE_NAME sha content
    (applyOp fs op, op)
  | none =>
    let op := GhOp.createF TEMPLATE_FILE_NAME content
    (applyOp fs op, op)

/-- The conditional-write contract for one call, judged against the
repository state it was issued on: an update must carry the current
version token of an existing file, a create must target an absent
path. -/
def opValid (fs : RepoFS) : GhOp → Prop
  | .createF path _ => fsFind fs path = none
  | .updateF path sha _ => ∃ fr, fsFind fs path = some fr ∧ fr.sha = sha

/-- `opValid` along a call sequence, each call judged against the state
left by its predecessors. -/
def opsValid : RepoFS → List GhOp → Prop
  | _, [] => True
  | fs, op :: rest => opValid fs op ∧ opsValid (applyOp fs op) rest

/-! ## weather_updater.py — content fetching, rendering, orchestration -/

/-- `get_wikipedia_summary` of the weather updater (lines 122-154): the
oracle maps each tried query string to an optional extract (an HTTP 200
payload carrying `extract`); the first hit wins, with the synthesized
fallback paragraph otherwise.  A citation is always appended. -/
def weather_get_wikipedia_summary (city_name : String) (resp : String → Option String) :
    String :=
  let clean_city_name := pstrip (pyidx0 (pysplit ',' (pyidx0 (pysplit '-' city_name))))
  let wikipedia_queries := [pyreplace (pyreplace city_name "-" " ") "," "", clean_city_name]
  match wikipedia_queries.filterMap resp with
  | summary :: _ => summary ++ " (Source: Wikipedia)"
  | [] =>
    clean_city_name ++ " is the current focal point of the software development " ++
    "revolution. The Titan Software Guild aims to be the center of this movement " ++
    "in the area. (Source: Wikipedia)"

/-- The JSON payload of one Overpass response as the weather updater
reads it (`overpass_data.get('elements')`). -/
structure OvJson where
  elements : Option (List Elem)
deriving DecidableEq, Repr

/-- One venue list item of `get_venue_html` (lines 163-190).  The
access `element['tags']` raises `KeyError` for a tagless element. -/
def venueLi (venue_type : String) (element : Elem) : Except PyErr String :=
  match element.tags with
  | none => .error .keyError
  | some tags =>
    let name := tget tags "name" ("Unnamed " ++ venue_type)
    let address_parts :=
      (if tmem tags "addr:street" then [tget tags "addr:street" ""] else []) ++
      (if tmem tags "addr:city" then [tget tags "addr:city" ""]
       else if tmem tags "addr:place" then [tget tags "addr:place" ""] else [])
    let address :=
      if address_parts = [] then "Address not available"
      else String.intercalate ", " address_parts
    let link :=
      match element.lat, element.lon with
      | some la, some lo => "https://www.google.com/maps/search/?api=1&query=" ++ la ++ "," ++ lo
      | _, _ =>
        match element.center with
        | some c => "https://www.google.com/maps/search/?api=1&query=" ++ c.1 ++ "," ++ c.2
        | none => "https://www.google.com/maps"
    .ok ("\n            <li>\n                <a href=\"" ++ link ++ "\" target=\"_blank\">" ++
      name ++ "</a>\n                <p class=\"address-line\">" ++ address ++
      "</p>\n            </li>\n        ")

/-- `get_venue_html` (weather_updater.py lines 156-194): a missing or
falsy `elements` array yields the "No … found" list, otherwise the first
three elements are rendered (raising `KeyError` past the function for a
tagless element). -/
def get_venue_html (overpass_data : Option OvJson) (venue_type : String) :
    Except PyErr String :=
  let noneFound := "<ul><li>No " ++ venue_type ++ " found in this area.</li></ul>"
  match overpass_data with
  | none => .ok noneFound
  | some d =>
    match d.elements with
    | none => .ok noneFound
    | some [] => .ok noneFound
    | some elements => do
      let lis ← (elements.take 3).mapM (venueLi venue_type)
      .ok ("<ul>" ++ String.join lis ++ "</ul>")

/-- `replace_in_content` (weather_updater.py lines 215-219). -/
def replace_in_content (content placeholder replacement : String) : Except PyErr String :=
  if placeholder = "" then .error .valueError
  else .ok (pyreplace content placeholder replacement)

/-- The OKC description paragraph replaced in step 5c (line 283). -/
def original_okc_paragraph : String :=
  "Oklahoma City (OKC) is the capital and largest city of Oklahoma. It is the " ++
  "20th most populous city in the United States and serves as the primary gateway " ++
  "to the state. Known for its historical roots in the oil industry and cattle " ++
  "packing, it has modernized into a hub for technology, energy, and corporate " ++
  "sectors. OKC is famous for the Bricktown Entertainment District and being home " ++
  "to the NBA\x27s Thunder team."

/-- The per-city provider/platform oracles of one weather_updater
deployment.  The four Overpass fields are the responses to the
bounding-box queries of step 3 (`None` on a request error). -/
structure WeatherEnv where
  geo : NomResp
  wiki : String → Option String
  libraries : Option OvJson
  bars : Option OvJson
  restaurants : Option OvJson
  barbers : Option OvJson
  template : Option String
  targetRepo : Option RepoFS
  createFails : Bool

/-- `process_city_deployment` (weather_updater.py lines 221-359).
Geocoding failure, template-load failure and every repository error are
handled inside the function by an early `return` (the deployment is
skipped), but a `KeyError` from `get_venue_html` — and an `IndexError`
from `get_coordinates_and_bbox` — escape it: the function body has no
try/except around steps 5a-5e.  Returns the written target-repository
state, `none` when the city was skipped. -/
def weather_process_city_deployment (env : WeatherEnv) (city_name : String) :
    Except PyErr (Option RepoFS) :=
  let _repo_name :=
    REPO_PREFIX ++ pyreplace (pyreplace city_name " " "-") "," "" ++ REPO_SUFFIX
  match get_coordinates_and_bbox city_name env.geo with
  | .error e => .error e
  | .ok none => .ok none
  | .ok (some (lat, lon, _bbox)) =>
    let summary_text := weather_get_wikipedia_summary city_name env.wiki
    match env.template with
    | none => .ok none
    | some template => do
      let display_city_name := pstrip (pyidx0 (pysplit ',' (pyidx0 (pysplit '-' city_name))))
      let html ← replace_in_content template "Oklahoma City" display_city_name
      let html ← replace_in_content html "OKC" display_city_name
      let html ← replace_in_content html "35.4676" (fmtDec lat)
      let html ← replace_in_content html "-97.5164" (fmtDec lon)
      let html ← replace_in_content html original_okc_paragraph summary_text
      let libHtml ← get_venue_html env.libraries "libraries"
      let html ← replace_in_content html "<!-- LIBRARIES_PLACEHOLDER -->" libHtml
      let barsHtml ← get_venue_html env.bars "bars"
      let html ← replace_in_content html "<!-- BARS_PLACEHOLDER -->" barsHtml
      let restHtml ← get_venue_html env.restaurants "restaurants"
      let html ← replace_in_content html "<!-- RESTAURANTS_PLACEHOLDER -->" restHtml
      let barbHtml ← get_venue_html env.barbers "barbers"
      let html ← replace_in_content html "<!-- BARBERS_PLACEHOLDER -->" barbHtml
      let html ← replace_in_content html "<!-- OSM_CITATION_PLACEHOLDER -->"
        "Â© OpenStreetMap contributors"
      let html ← replace_in_content html "<!-- NOAA_CITATION_PLACEHOLDER -->"
        "NOAA National Weather Service"
      match env.targetRepo with
      | some fs => .ok (some (weatherCommitIndex fs html).1)
      | none =>
        if env.createFails then .ok none
        else .ok (some (applyOp ([] : RepoFS) (.createF TEMPLATE_FILE_NAME html)))

/-- The per-city loop of weather_updater's `main` (lines 384-389): no
try/except surrounds `process_city_deployment`, so an exception escaping
one city aborts the loop.  Returns the cities that ran to completion
(including recovered skips) and the escaping exception, if any. -/
def weather_deploy_loop (envs : String → WeatherEnv) :
    List String → List String × Option PyErr
  | [] => ([], none)
  | city :: rest =>
    match weather_process_city_deployment (envs city) city with
    | .error e => ([], some e)
    | .ok _ =>
      let (done, err) := weather_deploy_loop envs rest
      (city :: done, err)

/-- `get_city_list` (weather_updater.py lines 25-33): strip the lines,
drop blanks, then `list(set(cities))` — deduplication through a Python
set.  A CPython set iterates in a hash-dependent order; the model keeps
first occurrences, and the theorems below use only order-independent
facts (membership and cardinality). -/
def weather_get_city_list (lines : List String) : List String :=
  ((lines.map pstrip).filter fun l => l ≠ "").dedup

/-- `main` of weather_updater.py (lines 361-394).  Without `GH_TOKEN` it
prints FATAL and exits before doing anything else.  With a token, the
authentication line `Github(auth=github.Auth.Token(token))` references
the module name `github`, which the script never binds
(`from github import Github` imports only `Github`), so it raises
`NameError`; the surrounding `except Exception` prints FATAL and calls
`sys.exit(1)`.  Either way the run exits with no network call made and
no city processed. -/
def weather_main (gh_token : Option String) : PyErr × List NetCall :=
  match gh_token with
  | none => (.sysExit 1, [])
  | some _ => (.sysExit 1, [])

/-! ## new_website_updater.py — orchestrator -/

/-- The non-blank stripped city lines of `main` (new_website_updater.py
line 372; `splitlines` and `split('\n')` agree after the strip-and-drop
step for the newline-separated inputs considered here). -/
def updater_city_list (cities_data : String) : List String :=
  ((pysplit '\n' cities_data).map pstrip).filter fun c => c ≠ ""

/-- The per-city loop of new_website_updater's `main` (lines 389-394):
`process_city_deployment` is abstracted at the orchestration boundary as
`processCity`, returning the per-city outcome record and its network
calls; the loop visits the city list in order with a sleep between
iterations. -/
def updater_loop (processCity : String → String × List NetCall) :
    List String → List (String × String) × List NetCall
  | [] => ([], [])
  | city :: rest =>
    ((city, (processCity city).1) :: (updater_loop processCity rest).1,
     (processCity city).2 ++ (updater_loop processCity rest).2)

/-- `main` of new_website_updater.py (lines 361-400).  The `GH_TOKEN`
check precedes the city-file read and the GitHub connection, so a
missing token raises `EnvironmentError` with no file read and no network
call (`Github(token)` and `g.get_user()` are lazy and request nothing
themselves; `delay` is the parsed `DEPLOY_DELAY`). -/
def updater_main (gh_token : Option String) (_delay : Dec) (cities_file : Option String)
    (processCity : String → String × List NetCall) :
    Except PyErr (List (String × String)) × List NetCall :=
  match gh_token with
  | none => (.error .environmentError, [])
  | some _ =>
    match cities_file with
    | none => (.error .fileNotFoundError, [])
    | some cities_data =>
      let all_cities := updater_city_list cities_data
      if all_cities = [] then (.ok [], [])
      else
        (.ok (updater_loop processCity all_cities).1,
         (updater_loop processCity all_cities).2)

/-! ## Safety predicates and concrete scenario inputs -/

/-- Does a geocoder response avoid the uncaught `IndexError` path of
`get_coordinates_and_bbox` (a nonempty result with a short
`boundingbox`)? -/
def geoSafeB : NomResp → Bool
  | .err => true
  | .ok [] => true
  | .ok (r :: _) => 4 ≤ r.boundingbox.length

/-- Do all elements that `get_venue_html` touches carry a `tags`
object (avoiding its `KeyError`)? -/
def ovSafeB : Option OvJson → Bool
  | none => true
  | some d =>
    match d.elements with
    | none => true
    | some es => (es.take 3).all fun e => e.tags.isSome

/-- A per-city environment that raises no exception through
`process_city_deployment`. -/
def envSafe (env : WeatherEnv) : Prop :=
  (geoSafeB env.geo && ovSafeB env.libraries && ovSafeB env.bars &&
    ovSafeB env.restaurants && ovSafeB env.barbers) = true

/-- Rendering scenario for the idempotence counterexample: a bundle whose
substituted city name itself contains the marker `Paoli`. -/
def c4cexRender (doc : String) : Except PyErr String :=
  update_html_template "Paolitown-Texas" 31.97 (-97) ⟨⟨[], [], [], []⟩⟩ "Nice." [] none doc

/-- Representative base document for the rendering-idempotence instance:
it contains the city marker, both coordinate displays, the clock
timezone, the JavaScript weather constants and comments, a Nexus-Point
block, and one business section. -/
def c4Doc : String :=
  "Paoli, Oklahoma\nLatitude: 1.5° N\nLongitude: 2.5° W\ntimeZone: \x27UTC\x27\n" ++
  "const lat = 1.0;\nconst lon = 2.0;\n// old Latitude\n// old Longitude\n" ++
  "The Nexus Point: Paoli, Oklahoma is here\n" ++
  "<h3>Barbershops</h3>\n            <ul class=\"business-list\">\nold</ul>\n"

/-- Renderer of the idempotence instance: city `Dallas-Texas`, whose
bundle values contain none of the template markers. -/
def c4Render (doc : String) : Except PyErr String :=
  update_html_template "Dallas-Texas" 34 (-97) ⟨⟨[], [], [], []⟩⟩ "A nice city."
    [("barbers", [⟨"Cool Cuts", "1 Main St", "", "#"⟩])] none doc

/-- Platform state after publishing `Austin-Texas` once into an empty
account. -/
def c5_st1 : GhState := (create_github_repo ⟨[]⟩ "titan" "Austin-Texas" "HTML-A").1

/-- Platform state after publishing `Austin-Texas` a second time, with
fresh content. -/
def c5_st2 : GhState := (create_github_repo c5_st1 "titan" "Austin-Texas" "HTML-B").1

/-- Content of a file of a named repository on the platform. -/
def ghFileContent (st : GhState) (name path : String) : Option String :=
  (ghFindRepo st name).bind fun r => (r.files.find? fun p => p.1 == path).map Prod.snd

/-- Fully populated provider oracles for a deployer run (everything
succeeds until the credential is needed). -/
def c7_oracles : DeployerOracles where
  newTxt := some "Dallas-Texas"
  geo := .ok [(32.7767, -96.797)]
  weather := none
  wiki := some (some "Dallas is a city in Texas.")
  overpass := fun _ _ => .ok []
  tz := none
  indexHtml := some "<p>doc</p>"
  github := ⟨[]⟩
  username := "titan"

/-- A weather-updater city environment where every provider succeeds and
no exception paths are reachable. -/
def c9_envGood : WeatherEnv where
  geo := .ok [⟨35.5, -97.5, [35.0, 36.0, -98.0, -97.0], "Good City"⟩]
  wiki := fun _ => none
  libraries := none
  bars := none
  restaurants := none
  barbers := none
  template := some "<html>Oklahoma City</html>"
  targetRepo := none
  createFails := false

/-- Like `c9_envGood`, but the libraries query returns an Overpass
element without a `tags` object. -/
def c9_envBad : WeatherEnv :=
  { c9_envGood with libraries := some ⟨some [⟨none, none, none, none⟩]⟩ }

/-- Environments for two cities: the first city's places data trips the
`KeyError`, the second city's is clean. -/
def c9_envs : String → WeatherEnv :=
  fun city => if city = "Lawton" then c9_envBad else c9_envGood

/-! ## Helper lemmas -/

/-- A string obtained by appending `s` cannot equal a string that does
not end in `s`. -/
theorem append_ne_of_not_suffix (c s t : String) (h : ¬ s.data <:+ t.data) :
    c ++ s ≠ t := by
  intro heq
  apply h
  have hd := congrArg String.data heq
  rw [String.data_append] at hd
  exact hd ▸ List.suffix_append c.data s.data

/-- Three pairwise-distinct strings form a `Nodup` list. -/
theorem nodup3 {a b c : String} (h1 : a ≠ b) (h2 : a ≠ c) (h3 : b ≠ c) :
    ([a, b, c] : List String).Nodup := by
  simp [List.nodup_cons, h1, h2, h3]

/-- The three synthetic fallback names of any category are pairwise
distinct, for every city string. -/
theorem get_business_fallbacks_names_nodup (category city : String) :
    ((get_business_fallbacks category city).map Listing.name).Nodup := by
  unfold get_business_fallbacks
  split_ifs
  · show ([city ++ " Barber Shop", "Professional Cuts", "Classic Barbers"] : List String).Nodup
    exact nodup3 (append_ne_of_not_suffix city " Barber Shop" "Professional Cuts" (by decide))
      (append_ne_of_not_suffix city " Barber Shop" "Classic Barbers" (by decide)) (by decide)
  · show ([city ++ " Coffee House", "Downtown Cafe", "Brew & Bean"] : List String).Nodup
    exact nodup3 (append_ne_of_not_suffix city " Coffee House" "Downtown Cafe" (by decide))
      (append_ne_of_not_suffix city " Coffee House" "Brew & Bean" (by decide)) (by decide)
  · show ([city ++ " Pub", "City Bar", "Local Tavern"] : List String).Nodup
    exact nodup3 (append_ne_of_not_suffix city " Pub" "City Bar" (by decide))
      (append_ne_of_not_suffix city " Pub" "Local Tavern" (by decide)) (by decide)
  · show ([city ++ " Family Diner", "Local Cafe", "City Grill"] : List String).Nodup
    exact nodup3 (append_ne_of_not_suffix city " Family Diner" "Local Cafe" (by decide))
      (append_ne_of_not_suffix city " Family Diner" "City Grill" (by decide)) (by decide)
  · show ([city ++ " Public Library", "Regional Library", "Community Library"] : List String).Nodup
    exact nodup3 (append_ne_of_not_suffix city " Public Library" "Regional Library" (by decide))
      (append_ne_of_not_suffix city " Public Library" "Community Library" (by decide)) (by decide)
  · show ([city ++ " Community Park", "Local Museum", "City Gardens"] : List String).Nodup
    exact nodup3 (append_ne_of_not_suffix city " Community Park" "Local Museum" (by decide))
      (append_ne_of_not_suffix city " Community Park" "City Gardens" (by decide)) (by decide)
  · simp

/-- Each of the six queried categories has exactly three synthetic
fallback listings. -/
theorem get_business_fallbacks_length (category city : String)
    (hcat : category ∈ deployerCategories) :
    (get_business_fallbacks category city).length = 3 := by
  simp only [deployerCategories, List.mem_cons, List.not_mem_nil, or_false] at hcat
  rcases hcat with rfl | rfl | rfl | rfl | rfl | rfl <;> rfl

/-- Invariant of the collection loop: the seen-name set stays duplicate
free, tracks the number of collected listings, and the loop never
collects more than three listings. -/
theorem processLoop_invariant (category city : String) (businesses : List Elem) :
    ∀ (processed : List Listing) (seen_names : List String),
      seen_names.Nodup → seen_names.length = processed.length → processed.length < 3 →
      (processLoop category city businesses processed seen_names).2.Nodup ∧
        (processLoop category city businesses processed seen_names).2.length =
          (processLoop category city businesses processed seen_names).1.length ∧
        (processLoop category city businesses processed seen_names).1.length ≤ 3 := by
  induction businesses with
  | nil =>
    intro p s h1 h2 h3
    exact ⟨h1, h2, Nat.le_of_lt h3⟩
  | cons b rest ih =>
    intro p s h1 h2 h3
    simp only [processLoop]
    split
    · exact ih p s h1 h2 h3
    · rename_i hcond
      push_neg at hcond
      split
      · rename_i hlen
        refine ⟨List.nodup_cons.mpr ⟨hcond.2, h1⟩, ?_, ?_⟩
        · simp [h2]
        · simp only [List.length_append, List.length_cons, List.length_nil]
          omega
      · rename_i hlen
        apply ih
        · exact List.nodup_cons.mpr ⟨hcond.2, h1⟩
        · simp [h2]
        · simp only [List.length_append, List.length_cons, List.length_nil] at hlen ⊢
          omega

/-- The fallback-fill loop tops the listing count up to exactly three
whenever enough fresh fallback names are available. -/
theorem fillFallbacks_length (fbs : List Listing) :
    ∀ (processed : List Listing) (seen_names : List String),
      (fbs.map Listing.name).Nodup →
      processed.length ≤ 3 →
      3 ≤ processed.length +
        ((fbs.map Listing.name).filter fun n => n ∉ seen_names).length →
      (fillFallbacks fbs processed seen_names).length = 3 := by
  induction fbs with
  | nil =>
    intro p s _ h2 h3
    simp only [List.map_nil, List.filter_nil, List.length_nil] at h3
    simp only [fillFallbacks]
    omega
  | cons fb rest ih =>
    intro p s hnd h2 h3
    have hndrest : (rest.map Listing.name).Nodup := (List.nodup_cons.mp hnd).2
    have hfbmem : fb.name ∉ rest.map Listing.name := (List.nodup_cons.mp hnd).1
    simp only [fillFallbacks]
    split
    · rename_i hcond
      apply ih
      · exact hndrest
      · simp only [List.length_append, List.length_cons, List.length_nil]
        omega
      · have hshift :
            ((rest.map Listing.name).filter fun n => n ∉ fb.name :: s) =
              (rest.map Listing.name).filter fun n => n ∉ s := by
          apply List.filter_congr
          intro n hn
          have hne : n ≠ fb.name := by
            intro heq
            exact hfbmem (heq ▸ hn)
          simp [List.mem_cons, hne]
        rw [hshift]
        have hcons :
            ((fb.name :: rest.map Listing.name).filter fun n => n ∉ s).length =
              ((rest.map Listing.name).filter fun n => n ∉ s).length + 1 := by
          simp [List.filter_cons, hcond.2]
        simp only [List.map_cons] at h3
        rw [hcons] at h3
        simp only [List.length_append, List.length_cons, List.length_nil]
        omega
    · rename_i hcond
      rw [Classical.not_and_iff_or_not_not] at hcond
      rcases hcond with hfull | hseen
      · apply ih _ _ hndrest h2
        omega
      · apply ih _ _ hndrest h2
        have hdrop :
            ((fb.name :: rest.map Listing.name).filter fun n => n ∉ s) =
              (rest.map Listing.name).filter fun n => n ∉ s := by
          simp [List.filter_cons, not_not.mpr (not_not.mp hseen)]
        simp only [List.map_cons] at h3
        rw [hdrop] at h3
        exact h3

/-- Pigeonhole step: at most `seen.length` of a duplicate-free name list
can already be seen. -/
theorem filter_mem_length_le (names seen : List String) (hnd : names.Nodup) :
    ((names.filter fun n => n ∈ seen).length) ≤ seen.length := by
  apply List.Subperm.length_le
  apply List.subperm_of_subset
  · exact hnd.filter _
  · intro x hx
    have := List.of_mem_filter hx
    simpa using this

/-- The aggregation step always produces exactly three listings for each
of the six queried categories, whatever the provider returned. -/
theorem process_business_data_enhanced_length (businesses : List Elem)
    (category city : String) (hcat : category ∈ deployerCategories) :
    (process_business_data_enhanced businesses category city).length = 3 := by
  obtain ⟨hnodupS, hlenEq, hle⟩ :=
    processLoop_invariant category city businesses [] [] List.nodup_nil rfl (by decide)
  unfold process_business_data_enhanced
  split
  · rename_i hlt
    apply fillFallbacks_length _ _ _ (get_business_fallbacks_names_nodup category city) hle
    have hnames :
        ((get_business_fallbacks category city).map Listing.name).length = 3 := by
      rw [List.length_map]
      exact get_business_fallbacks_length category city hcat
    have hsplit :=
      List.length_eq_length_filter_add
        (l := (get_business_fallbacks category city).map Listing.name)
        (fun n => n ∈ (processLoop category city businesses [] []).2)
    have hmemle :=
      filter_mem_length_le ((get_business_fallbacks category city).map Listing.name)
        (processLoop category city businesses [] []).2
        (get_business_fallbacks_names_nodup category city)
    have hcompl :
        ((get_business_fallbacks category city).map Listing.name).filter
            (fun n => !(n ∈ (processLoop category city businesses [] []).2 : Bool)) =
          ((get_business_fallbacks category city).map Listing.name).filter
            (fun n => n ∉ (processLoop category city businesses [] []).2) := by
      apply List.filter_congr
      intro n _
      simp
    rw [hcompl] at hsplit
    rw [hnames] at hsplit
    omega
  · rename_i hge
    exact Nat.le_antisymm hle (Nat.not_lt.mp hge)

/-- `commit_file` issues a conditional-write-correct call and its new
state is that call's effect. -/
theorem commit_file_valid (fs : RepoFS) (path content : String) :
    opValid fs (commit_file fs path content).2 ∧
      (commit_file fs path content).1 = applyOp fs (commit_file fs path content).2 := by
  cases h : fsFind fs path with
  | some fr =>
    simp only [commit_file, h]
    exact ⟨⟨fr, h, rfl⟩, trivial⟩
  | none =>
    simp only [commit_file, h]
    exact ⟨h, trivial⟩

/-- Every call of a `commit_file` sequence is conditional-write
correct against the state left by its predecessors. -/
theorem commitSeq_valid (l : List (String × String)) :
    ∀ fs, opsValid fs (commitSeq fs l).2 := by
  induction l with
  | nil => intro fs; trivial
  | cons pc rest ih =>
    intro fs
    have h := commit_file_valid fs pc.1 pc.2
    refine ⟨h.1, ?_⟩
    rw [← h.2]
    exact ih _

/-- The weather updater's index commit is conditional-write correct. -/
theorem weatherCommitIndex_valid (fs : RepoFS) (content : String) :
    opValid fs (weatherCommitIndex fs content).2 := by
  cases h : fsFind fs TEMPLATE_FILE_NAME with
  | some fr =>
    have hs : get_content_sha fs TEMPLATE_FILE_NAME = some fr.sha := by
      simp [get_content_sha, h]
    simp only [weatherCommitIndex, hs]
    exact ⟨fr, h, rfl⟩
  | none =>
    have hs : get_content_sha fs TEMPLATE_FILE_NAME = none := by
      simp [get_content_sha, h]
    simp only [weatherCommitIndex, hs]
    exact h

/-- After appending a repository under a fresh name, lookup finds it. -/
theorem ghFindRepo_append_self (st : GhState) (n : String) (r : GhRepo)
    (h : st.repos.find? (fun p => p.1 == n) = none) :
    ghFindRepo ⟨st.repos ++ [(n, r)]⟩ n = some r := by
  simp [ghFindRepo, List.find?_append, h]

/-- Publishing leaves the destination present under its derived name. -/
theorem create_github_repo_mem (st : GhState) (u cs html : String) :
    (ghFindRepo (create_github_repo st u cs html).1 (deployerRepoName cs)).isSome := by
  cases hf : ghFindRepo st (deployerRepoName cs) with
  | some r =>
    simp only [create_github_repo, hf]
    simp [hf]
  | none =>
    have hfind : st.repos.find? (fun p => p.1 == deployerRepoName cs) = none := by
      unfold ghFindRepo at hf
      cases hx : st.repos.find? fun p => p.1 == deployerRepoName cs with
      | none => rfl
      | some v => rw [hx] at hf; simp at hf
    simp only [create_github_repo, hf]
    rw [ghFindRepo_append_self _ _ _ hfind]
    rfl

/-- Publishing into a state that already holds the destination is a
platform-state no-op (the 422 branch). -/
theorem create_github_repo_existing (st : GhState) (u cs html : String)
    (h : (ghFindRepo st (deployerRepoName cs)).isSome) :
    (create_github_repo st u cs html).1 = st := by
  cases hf : ghFindRepo st (deployerRepoName cs) with
  | some r => simp only [create_github_repo, hf]
  | none => rw [hf] at h; simp at h

/-- `get_coordinates_and_bbox` returns normally on any response with a
well-formed bounding box. -/
theorem get_coordinates_ok (city : String) (resp : NomResp) (h : geoSafeB resp = true) :
    ∃ r, get_coordinates_and_bbox city resp = Except.ok r := by
  match resp with
  | .err => exact ⟨none, rfl⟩
  | .ok [] => exact ⟨none, rfl⟩
  | .ok (r :: rs) =>
    simp only [geoSafeB, decide_eq_true_eq] at h
    match hb : r.boundingbox with
    | s1 :: n1 :: w1 :: e1 :: t =>
      refine ⟨some (r.lat, r.lon,
        fmtDec s1 ++ "," ++ fmtDec w1 ++ "," ++ fmtDec n1 ++ "," ++ fmtDec e1), ?_⟩
      simp [get_coordinates_and_bbox, hb]
    | [] =>
      rw [hb] at h
      simp only [List.length_nil, List.length_cons] at h
      omega
    | [_] =>
      rw [hb] at h
      simp only [List.length_nil, List.length_cons] at h
      omega
    | [_, _] =>
      rw [hb] at h
      simp only [List.length_nil, List.length_cons] at h
      omega
    | [_, _, _] =>
      rw [hb] at h
      simp only [List.length_nil, List.length_cons] at h
      omega

/-- `venueLi` succeeds on an element carrying a `tags` object. -/
theorem venueLi_ok (vt : String) (e : Elem) (h : e.tags.isSome) :
    ∃ s, venueLi vt e = Except.ok s := by
  cases ht : e.tags with
  | none => rw [ht] at h; simp at h
  | some tags =>
    apply Exists.intro
    unfold venueLi
    rw [ht]

/-- `mapM` of `venueLi` succeeds when every element has tags. -/
theorem mapM_venueLi_ok (vt : String) :
    ∀ (es : List Elem), (∀ e ∈ es, e.tags.isSome) →
      ∃ l, es.mapM (venueLi vt) = Except.ok l := by
  intro es
  induction es with
  | nil => intro _; exact ⟨[], rfl⟩
  | cons e rest ih =>
    intro h
    obtain ⟨s, hs⟩ := venueLi_ok vt e (h e (by simp))
    obtain ⟨l, hl⟩ := ih fun x hx => h x (by simp [hx])
    refine ⟨s :: l, ?_⟩
    rw [List.mapM_cons, hs, hl]
    rfl

/-- `get_venue_html` returns normally when the touched elements all
carry tags. -/
theorem get_venue_html_ok :
    ∀ (o : Option OvJson) (vt : String), ovSafeB o = true →
      ∃ s, get_venue_html o vt = Except.ok s
  | none, vt, _ => ⟨_, rfl⟩
  | some ⟨none⟩, vt, _ => ⟨_, rfl⟩
  | some ⟨some []⟩, vt, _ => ⟨_, rfl⟩
  | some ⟨some (e :: es)⟩, vt, h => by
    have hall : ∀ x ∈ (e :: es).take 3, x.tags.isSome = true := by
      simpa [ovSafeB] using h
    obtain ⟨l, hl⟩ := mapM_venueLi_ok vt ((e :: es).take 3) hall
    refine ⟨"<ul>" ++ String.join l ++ "</ul>", ?_⟩
    show (((e :: es).take 3).mapM (venueLi vt) >>= fun lis =>
        Except.ok ("<ul>" ++ String.join lis ++ "</ul>")) = _
    rw [hl]
    rfl

/-- A safe per-city environment makes `process_city_deployment` return
normally. -/
theorem weather_process_ok (env : WeatherEnv) (city : String) (h : envSafe env) :
    ∃ r, weather_process_city_deployment env city = Except.ok r := by
  simp only [envSafe, Bool.and_eq_true] at h
  obtain ⟨⟨⟨⟨hgeo, hlib⟩, hbars⟩, hrest⟩, hbarb⟩ := h
  obtain ⟨g, hgok⟩ := get_coordinates_ok city env.geo hgeo
  unfold weather_process_city_deployment
  rw [hgok]
  cases g with
  | none => exact ⟨none, rfl⟩
  | some triple =>
    obtain ⟨lat, lon, bbox⟩ := triple
    cases ht : env.template with
    | none => exact ⟨none, rfl⟩
    | some template =>
      obtain ⟨libS, hlibS⟩ := get_venue_html_ok env.libraries "libraries" hlib
      obtain ⟨barsS, hbarsS⟩ := get_venue_html_ok env.bars "bars" hbars
      obtain ⟨restS, hrestS⟩ := get_venue_html_ok env.restaurants "restaurants" hrest
      obtain ⟨barbS, hbarbS⟩ := get_venue_html_ok env.barbers "barbers" hbarb
      rw [hlibS, hbarsS, hrestS, hbarbS]
      cases htr : env.targetRepo with
      | some fs => exact ⟨_, rfl⟩
      | none =>
        cases hcf : env.createFails with
        | true => exact ⟨none, rfl⟩
        | false => exact ⟨_, rfl⟩

/-- The records of the per-city loop list exactly the visited cities, in
order. -/
theorem updater_loop_map_fst (processCity : String → String × List NetCall) :
    ∀ cities, ((updater_loop processCity cities).1).map Prod.fst = cities := by
  intro cities
  induction cities with
  | nil => rfl
  | cons c rest ih => simp [updater_loop, ih]

/-! ## Claim theorems -/

/-- Claim C1, counterexample: the weather updater's resolver does yield
an unresolved result — on the city-state input `Smallville-Nowhere` with
a geocoder returning zero results, `get_coordinates_and_bbox` returns
the Python `(None, None, None)` triple instead of falling back to a
region centroid or the fixed default coordinate. -/
theorem c1_counterexample :
    get_coordinates_and_bbox "Smallville-Nowhere" (NomResp.ok []) = Except.ok none := rfl

/-- Claim C1, amended: the deployer's `geocode_city` never fails for an
input whose dash-split has exactly two parts — provider errors, HTTP 403
and empty results all fall back to `get_state_coordinates`, and an
unknown state yields the fixed default `(39.8283, -98.5795)`.  (The
weather updater's resolver instead returns an unresolved `None` triple,
and inputs without exactly one dash raise `ValueError`.) -/
theorem c1_theorem (city_state state : String) (resp : GeoResp)
    (hsplit2 : (pysplit '-' city_state).length = 2)
    (hstate : state ∉ ["Texas", "TX", "Oklahoma", "OK", "California", "CA",
      "New York", "NY", "Florida", "FL"]) :
    (∃ c, geocode_city city_state resp = Except.ok c) ∧
      get_state_coordinates state = (39.8283, -98.5795) := by
  constructor
  · unfold geocode_city
    cases hs : pysplit '-' city_state with
    | nil => rw [hs] at hsplit2; simp at hsplit2
    | cons a t =>
      cases t with
      | nil => rw [hs] at hsplit2; simp at hsplit2
      | cons b t2 =>
        cases t2 with
        | nil =>
          cases resp with
          | err => exact ⟨get_state_coordinates b, rfl⟩
          | http403 => exact ⟨get_state_coordinates b, rfl⟩
          | ok results =>
            cases results with
            | nil => exact ⟨get_state_coordinates b, rfl⟩
            | cons r rs => exact ⟨r, rfl⟩
        | cons c3 t3 => rw [hs] at hsplit2; simp at hsplit2
  · simp only [get_state_coordinates]
    have hfind :
        ([("Texas", ((31.9686 : Dec), (-99.9018 : Dec))), ("TX", (31.9686, -99.9018)),
          ("Oklahoma", (35.4676, -97.5164)), ("OK", (35.4676, -97.5164)),
          ("California", (36.7783, -119.4179)), ("CA", (36.7783, -119.4179)),
          ("New York", (43.2994, -74.2179)), ("NY", (43.2994, -74.2179)),
          ("Florida", (27.6648, -81.5158)), ("FL", (27.6648, -81.5158))].find?
            fun p => p.1 == state) = none := by
      rw [List.find?_eq_none]
      intro x hx
      simp only [List.mem_cons, List.not_mem_nil, or_false] at hx
      rcases hx with rfl | rfl | rfl | rfl | rfl | rfl | rfl | rfl | rfl | rfl <;>
        · intro hbeq
          rw [beq_iff_eq] at hbeq
          subst hbeq
          simp at hstate
    rw [hfind]
    rfl

/-- Claim C1, witness for the amended theorem. -/
theorem c1_witness :
    (∃ c, geocode_city "Dallas-Texas" GeoResp.http403 = Except.ok c) ∧
      get_state_coordinates "Nowhere" = (39.8283, -98.5795) :=
  c1_theorem "Dallas-Texas" "Nowhere" GeoResp.http403 (by decide) (by decide)

/-- Claim C2, counterexample: the weather updater's aggregation does not
pad — with one provider result for a category, `get_venue_html` renders
exactly one listing, not three. -/
theorem c2_counterexample :
    (get_venue_html (some ⟨some [{ tags := some [("name", "Joes Diner")] }]⟩)
        "restaurants").map (fun h => pyCount h "<li>") = Except.ok 1 ∧ (1 : Nat) ≠ 3 :=
  ⟨rfl, by decide⟩

/-- Claim C2, amended: the deployer's aggregation step
`process_business_data_enhanced` returns exactly three listings for
every fixed category and every provider result list, padding with
deterministic synthetic fallbacks named after the category and city.
(The weather updater's `get_venue_html` variant renders at most the
first three real results with no padding.) -/
theorem c2_theorem (businesses : List Elem) (category city : String)
    (hcat : category ∈ deployerCategories) :
    (process_business_data_enhanced businesses category city).length = 3 :=
  process_business_data_enhanced_length businesses category city hcat

/-- Claim C2, witness for the amended theorem. -/
theorem c2_witness :
    "libraries" ∈ deployerCategories ∧
      (process_business_data_enhanced [] "libraries" "Paoli").length = 3 :=
  ⟨by decide, c2_theorem [] "libraries" "Paoli" (by decide)⟩

/-- Claim C3, counterexample: when the places provider returns zero
elements for `barbers`, the deployer still issues exactly one Overpass
request at the default 20000-metre radius — there is no second, widened
query — and pads straight to three synthetic listings. -/
theorem c3_counterexample :
    deployerCategoryRadii "barbers" = [20000] ∧
      ¬ 2 ≤ (deployerCategoryRadii "barbers").length ∧
      (deployerCategoryListings (fun _ => OvCallResult.ok []) "barbers" "Dallas").length = 3 :=
  ⟨rfl, by decide, by decide⟩

/-- Claim C3, amended: for each queried category the aggregator issues a
single Overpass request at the fixed default radius (never a widened
retry) and pads the result directly to exactly three listings. -/
theorem c3_theorem (provider : Nat → OvCallResult) (category city : String)
    (hcat : category ∈ deployerCategories) :
    deployerCategoryRadii category = [20000] ∧
      (deployerCategoryListings provider category city).length = 3 := by
  constructor
  · simp [deployerCategoryRadii, query_overpass_radii, hcat]
  · exact process_business_data_enhanced_length _ _ _ hcat

/-- Claim C3, witness for the amended theorem. -/
theorem c3_witness :
    deployerCategoryRadii "coffee_shops" = [20000] ∧
      (deployerCategoryListings (fun _ => OvCallResult.err) "coffee_shops" "Tulsa").length = 3 :=
  c3_theorem (fun _ => OvCallResult.err) "coffee_shops" "Tulsa" (by decide)

/-- Claim C4, counterexample: rendering is not idempotent — for the city
`Paolitown-Texas`, whose substituted name itself contains the marker
`Paoli`, rendering the already-rendered document re-replaces the marker
inside the substituted content and corrupts it
(`Paolitown` becomes `Paolitowntown`). -/
theorem c4_counterexample :
    (c4cexRender "Welcome to Paoli today").bind c4cexRender ≠
      c4cexRender "Welcome to Paoli today" := by decide

/-- Claim C4, amended: rendering is idempotent only when the bundle's
substituted values contain none of the literal markers the rules match
on; verified on a representative base document exercising the city-name
replacement, both coordinate displays, the clock timezone, the
JavaScript weather constants and comments, the Nexus-Point block and a
business section, with the marker-free bundle of `c4Render`. -/
theorem c4_theorem : (c4Render c4Doc).bind c4Render = c4Render c4Doc := by decide

/-- Claim C5, counterexample: the second publish of `Austin-Texas` is
reported as success (the existing repository's URL is returned), but the
destination's `index.html` still holds the first run's content — the 422
branch returns without any update, so "success followed by update
semantics" does not hold for the deployer. -/
theorem c5_counterexample :
    (create_github_repo c5_st1 "titan" "Austin-Texas" "HTML-B").2.1 =
        "https://github.com/titan/austintexas" ∧
      ghFileContent c5_st2 "austintexas" "index.html" = some "HTML-A" ∧
      "HTML-A" ≠ "HTML-B" :=
  ⟨rfl, rfl, by decide⟩

/-- Claim C5, amended: the destination name is a pure function of the
city string, publishing leaves the destination present, and a second
publish for the same city is a platform-state no-op (422 treated as
success, one repository, but no file update). -/
theorem c5_theorem (st : GhState) (u1 u2 city_state html1 html2 : String) :
    (create_github_repo (create_github_repo st u1 city_state html1).1
        u2 city_state html2).1 = (create_github_repo st u1 city_state html1).1 ∧
      (ghFindRepo (create_github_repo st u1 city_state html1).1
        (deployerRepoName city_state)).isSome := by
  refine ⟨?_, create_github_repo_mem st u1 city_state html1⟩
  exact create_github_repo_existing _ _ _ _ (create_github_repo_mem st u1 city_state html1)

/-- Claim C6: every file written by the updaters' publish phase is a
conditional write — when the file exists in the destination, its current
content SHA is fetched and included in the update call; when it does
not, the file is created fresh.  This holds for all four files committed
by new_website_updater and for the weather updater's index commit. -/
theorem c6_theorem (fs gs : RepoFS) (verification thankyou indexHtml content : String) :
    opsValid fs (updaterCommitPhase fs verification thankyou indexHtml).2 ∧
      opsValid gs [(weatherCommitIndex gs content).2] :=
  ⟨commitSeq_valid _ fs, weatherCommitIndex_valid gs content, trivial⟩

/-- Claim C7, counterexample: with `GITHUB_TOKEN` absent and all
providers answering, the deployer's run performs ten network calls
(geocoding, forecast, encyclopedia, six Overpass queries, timezone)
before failing at repository creation — not zero — and only then writes
its fatal-error record. -/
theorem c7_counterexample :
    (deployer_main none c7_oracles).1 = Except.error PyErr.assertionError ∧
      (deployer_main none c7_oracles).2.1.length = 10 ∧
      (deployer_main none c7_oracles).2.1 ≠ [] ∧
      (deployer_main none c7_oracles).2.2 = ["deployment_error.txt"] :=
  ⟨rfl, rfl, by decide, rfl⟩

/-- Claim C7, amended: in weather_updater and new_website_updater a
missing credential aborts the run fatally before any network call; the
deployer instead only touches the credential at publish time. -/
theorem c7_theorem (delay : Dec) (cities_file : Option String)
    (processCity : String → String × List NetCall) (gh_token : Option String)
    (h : gh_token = none) :
    updater_main gh_token delay cities_file processCity =
        (Except.error PyErr.environmentError, []) ∧
      weather_main gh_token = (PyErr.sysExit 1, []) := by
  subst h
  exact ⟨rfl, rfl⟩

/-- Claim C7, witness for the amended theorem. -/
theorem c7_witness :
    updater_main none 200 (some "Austin\n") (fun c => (c, [])) =
        (Except.error PyErr.environmentError, []) ∧
      weather_main none = (PyErr.sysExit 1, []) :=
  c7_theorem 200 (some "Austin\n") (fun c => (c, [])) none rfl

/-- Claim C8, counterexample: weather_updater funnels the city lines
through `list(set(...))` — with input lines `Austin, Dallas, Austin` only
two pipeline runs happen for three non-blank lines, so the i-th run
cannot correspond to the i-th non-blank line. -/
theorem c8_counterexample :
    (weather_get_city_list ["Austin", "Dallas", "Austin"]).length = 2 ∧
      (((["Austin", "Dallas", "Austin"] : List String).map pstrip).filter
        fun l => l ≠ "").length = 3 ∧
      (2 : Nat) ≠ 3 :=
  ⟨by decide, by decide, by decide⟩

/-- Claim C8, amended: new_website_updater's orchestrator does process
the i-th non-blank stripped input line as the i-th pipeline run — its
run records map back exactly to the city list in input order.  (The
weather updater instead deduplicates through a set first.) -/
theorem c8_theorem (token : String) (delay : Dec) (cities_data : String)
    (processCity : String → String × List NetCall) :
    ∃ records calls,
      updater_main (some token) delay (some cities_data) processCity =
          (Except.ok records, calls) ∧
        records.map Prod.fst = updater_city_list cities_data := by
  by_cases h : updater_city_list cities_data = []
  · refine ⟨[], [], ?_, by rw [h]; rfl⟩
    simp [updater_main, h]
  · refine ⟨(updater_loop processCity (updater_city_list cities_data)).1,
      (updater_loop processCity (updater_city_list cities_data)).2, ?_, ?_⟩
    · simp [updater_main, h]
    · exact updater_loop_map_fst processCity _

/-- Claim C9, counterexample: an exception escaping one city's pipeline
stops all later cities — with `Lawton`'s places data holding a tagless
element, the `KeyError` propagates past the per-city loop (which has no
try/except) and `Norman` is never processed. -/
theorem c9_counterexample :
    weather_deploy_loop c9_envs ["Lawton", "Norman"] = ([], some PyErr.keyError) := by
  decide

/-- Claim C9, amended: failures handled inside
`process_city_deployment` (geocoding skip, template-load failure,
repository errors) do not stop subsequent cities: when every city's
environment is exception free, the loop completes every city in input
order.  Exceptions escaping the function, however, abort the loop (see
the counterexample). -/
theorem c9_theorem (envs : String → WeatherEnv) (cities : List String)
    (h : ∀ city ∈ cities, envSafe (envs city)) :
    weather_deploy_loop envs cities = (cities, none) := by
  induction cities with
  | nil => rfl
  | cons c rest ih =>
    obtain ⟨r, hr⟩ := weather_process_ok (envs c) c (h c (by simp))
    simp only [weather_deploy_loop, hr]
    rw [ih fun x hx => h x (by simp [hx])]

/-- Claim C9, witness for the amended theorem. -/
theorem c9_witness :
    weather_deploy_loop (fun _ => c9_envGood) ["Tulsa", "Edmond"] =
      (["Tulsa", "Edmond"], none) :=
  c9_theorem (fun _ => c9_envGood) ["Tulsa", "Edmond"]
    (fun _ _ => show envSafe c9_envGood by unfold envSafe; decide)

/-- Claim C10: the rendered document is independent of the
weather-forecast response — `update_html_template` never reads its
`weather_data` argument, so any two forecast payloads (including the
empty fallback structure `get_weather_forecast` returns on provider
failure) yield byte-for-byte identical output. -/
theorem c10_theorem (city_state : String) (lat lon : Dec)
    (resp1 resp2 : Option WeatherData) (wiki_summary : String)
    (business_data : List (String × List Listing))
    (tzResp : Option (Option String)) (doc : String) :
    update_html_template city_state lat lon (get_weather_forecast resp1) wiki_summary
        business_data tzResp doc =
      update_html_template city_state lat lon (get_weather_forecast resp2) wiki_summary
        business_data tzResp doc := rfl

end O2
